import Mathlib

/-!
Verification of the definite-mcp query execution layer
(src/definite_mcp/__init__.py) against its specification.

The module has two layers:
* a transport client: `_post_with_retries` (bounded exponential-backoff
  retries restricted to a closed set of connectivity failures) wrapped by
  `make_api_request` (DNS log, health preflight, POST, JSON decode);
* a query executor: `run_sql_query` / `run_cube_query`, which build the
  payload (default-integration fallback) and normalize every failure into
  a stable result dictionary.

The embedding models machine behaviour shallowly: exception classes become
an inductive `ExcKind`, each network attempt is an element of a schedule
list `List (AttemptOutcome α)` supplied by the environment, backoff delays
are rationals (the Python float arithmetic `backoff *= 2.0` starting from
0.5 is exact in binary floating point, so `Rat` is faithful), and Python
dictionaries returned to the caller become structures with `Option` fields
for keys that are present only on some paths.
-/

/-- Exception classes that can be raised while awaiting the POST.
The first six are exactly the classes named in the retry `except` tuple of
`_post_with_retries`; `other` covers any further `Exception` subclass,
carrying `__module__` and `__name__`. -/
inductive ExcKind : Type
  | connectTimeout
  | readTimeout
  | poolTimeout
  | asyncioTimeout
  | connectError
  | remoteProtocolError
  | other (module : String) (name : String)
deriving Repr, DecidableEq

/-- The `__name__` of the exception class (used by the synthesized
fallback message and by `exception_type`). -/
def ExcKind.className : ExcKind → String
  | .connectTimeout => "ConnectTimeout"
  | .readTimeout => "ReadTimeout"
  | .poolTimeout => "PoolTimeout"
  | .asyncioTimeout => "TimeoutError"
  | .connectError => "ConnectError"
  | .remoteProtocolError => "RemoteProtocolError"
  | .other _ n => n

/-- The `__module__` of the exception class. -/
def ExcKind.moduleName : ExcKind → String
  | .other m _ => m
  | .asyncioTimeout => "asyncio.exceptions"
  | _ => "httpx"

/-- Whether the exception class is a member of the `except` tuple
`(httpx.ConnectTimeout, httpx.ConnectError, httpx.ReadTimeout,
httpx.RemoteProtocolError, httpx.PoolTimeout, asyncio.TimeoutError)`
in `_post_with_retries` (the connectivity set eligible for retry). -/
def isConnectivity : ExcKind → Bool
  | .connectTimeout => true
  | .readTimeout => true
  | .poolTimeout => true
  | .asyncioTimeout => true
  | .connectError => true
  | .remoteProtocolError => true
  | .other _ _ => false

/-- Embedding of `_phase_for_exception`: the phase tag for a transport-class failure;
any class outside the closed set yields its own class name. -/
def _phase_for_exception (k : ExcKind) : String :=
  match k with
  | .connectTimeout => "connect_timeout"
  | .readTimeout => "read_timeout"
  | .poolTimeout => "pool_timeout"
  | .asyncioTimeout => "attempt_deadline_timeout"
  | .connectError => "connect_error"
  | .remoteProtocolError => "protocol_error"
  | .other _ n => n

/-- Result of `json.loads` applied to the text of an HTTP error response.
`invalid` models a `json.JSONDecodeError`; `nonDict` models a successful
parse whose value is not an object (Python then raises `AttributeError`
at `error_json.get`, which the handler does not catch); `dict msg` models
an object whose `message` entry is the string `m` when `msg = some m`
(absent when `msg = none`; non-string message values are not modelled). -/
inductive JsonBody : Type
  | invalid
  | nonDict
  | dict (message : Option String)
deriving Repr, DecidableEq

/-- An httpx response observed by the error handlers: status code plus the
body text and the outcome of parsing that text as JSON. -/
structure HttpResponse : Type where
  status_code : Nat
  text : String
  body : JsonBody
deriving Repr, DecidableEq

/-- An exception escaping `make_api_request`: either `raise_for_status`
raised `httpx.HTTPStatusError` for a non-2xx response, or some other
exception (connectivity or otherwise) with its `str(e)` message. -/
inductive ApiException : Type
  | httpStatus (resp : HttpResponse)
  | exc (kind : ExcKind) (message : String)
deriving Repr, DecidableEq

/-- What one awaited POST attempt does, as chosen by the environment:
complete with 2xx (carrying the decoded JSON body of type `α`), complete
with non-2xx (so `raise_for_status` raises), or raise an exception. -/
inductive AttemptOutcome (α : Type) : Type
  | success (data : α)
  | httpStatus (resp : HttpResponse)
  | raised (kind : ExcKind) (message : String)
deriving Repr, DecidableEq

/-- Loop body of `_post_with_retries`, consuming the schedule of attempt
outcomes. Mirrors: `attempt += 1`; a 2xx response returns; a non-2xx
response raises `HTTPStatusError` (not in the `except` tuple, so it
propagates at once); a connectivity exception retries after sleeping
`backoff` and doubling it, unless `attempt >= RETRIES`, in which case it
is re-raised; any other exception propagates at once. Returns the number
of attempts made, the list of backoff sleeps performed, and the final
outcome; `none` when the supplied schedule is too short to terminate. -/
def postWithRetriesAux {α : Type} (retries attempt : Nat) (backoff : ℚ) :
    List (AttemptOutcome α) → Option (Nat × List ℚ × Except ApiException α)
  | [] => none
  | o :: rest =>
    let att := attempt + 1
    match o with
    | .success data => some (att, [], .ok data)
    | .httpStatus resp => some (att, [], .error (.httpStatus resp))
    | .raised k m =>
      if isConnectivity k then
        if retries ≤ att then some (att, [], .error (.exc k m))
        else
          match postWithRetriesAux retries att (backoff * 2) rest with
          | none => none
          | some (n, ws, r) => some (n, backoff :: ws, r)
      else some (att, [], .error (.exc k m))

/-- Entry point of `_post_with_retries`: `attempt = 0`,
`backoff = BACKOFF_BASE_S`. -/
def _post_with_retries {α : Type} (retries : Nat) (backoffBase : ℚ)
    (outcomes : List (AttemptOutcome α)) :
    Option (Nat × List ℚ × Except ApiException α) :=
  postWithRetriesAux retries 0 backoffBase outcomes

/-- The one-time DNS visibility step of `make_api_request`: the whole
body, including host extraction, sits in `try: ... except Exception: pass`,
so whatever the lookup does the step completes and yields no value. -/
def dnsVisibilityStep (outcome : Except String (List String)) : Unit :=
  match outcome with
  | .ok _ => ()
  | .error _ => ()

/-- Embedding of `_preflight_health`: the HEAD request and its logging sit inside
`try: ... except Exception as e: log.warning(...)`, so every outcome of
the preflight (any status code, or any exception) is absorbed. -/
def _preflight_health (outcome : Except String Nat) : Unit :=
  match outcome with
  | .ok _ => ()
  | .error _ => ()

/-- Embedding of `make_api_request`: performs the best-effort DNS log and health
preflight, then delegates to `_post_with_retries`; on success the decoded
JSON body (already carried by `AttemptOutcome.success`) is returned, and
any exception is logged and re-raised unchanged. -/
def make_api_request {α : Type} (dns : Except String (List String))
    (preflight : Except String Nat) (retries : Nat) (backoffBase : ℚ)
    (outcomes : List (AttemptOutcome α)) :
    Option (Nat × List ℚ × Except ApiException α) :=
  let _u1 : Unit := dnsVisibilityStep dns
  let _u2 : Unit := _preflight_health preflight
  _post_with_retries retries backoffBase outcomes

/-- Module-level configuration read from the environment at startup and
then immutable: the base URL, whether an API key was configured, and the
descriptive string produced by `_timeout_string`. -/
structure Config : Type where
  api_base_url : String
  api_key_configured : Bool
  timeouts_string : String
deriving Repr, DecidableEq

/-- Python truthiness of an `Optional[str]`: truthy exactly when it is a
present, non-empty string. -/
def pyTruthy : Option String → Bool
  | none => false
  | some s => !s.isEmpty

/-- The JSON payload built by `run_sql_query`: the key `sql` always, the
key `integration_id` only on some paths (`none` models the key being
absent from the dictionary). -/
structure SqlPayload : Type where
  sql : String
  integration_id : Option String
deriving Repr, DecidableEq

/-- The JSON payload built by `run_cube_query`; the cube query structure
is opaque to the executor, so it is a type parameter. -/
structure CubePayload (β : Type) : Type where
  cube_query : β
  integration_id : Option String
deriving Repr, DecidableEq

/-- Payload assembly of `run_sql_query` (lines using
`if integration_id: ... else: _TABLE_INTEGRATION_ID = os.getenv(...)`):
a truthy caller argument wins, else a truthy environment default, else
the key is omitted. -/
def buildSqlPayload (sql : String) (integration_id table_default : Option String) :
    SqlPayload :=
  if pyTruthy integration_id then { sql := sql, integration_id := integration_id }
  else if pyTruthy table_default then { sql := sql, integration_id := table_default }
  else { sql := sql, integration_id := none }

/-- Payload assembly of `run_cube_query`, identical in structure with the
environment default `_CUBE_INTEGRATION_ID`. -/
def buildCubePayload {β : Type} (cube_query : β)
    (integration_id cube_default : Option String) : CubePayload β :=
  if pyTruthy integration_id then { cube_query := cube_query, integration_id := integration_id }
  else if pyTruthy cube_default then { cube_query := cube_query, integration_id := cube_default }
  else { cube_query := cube_query, integration_id := none }

/-- The dictionary built by `_common_request_details`, with the `phase`
key that the transport-failure branch merges in afterwards (`none` models
the key being absent). -/
structure RequestDetails (π : Type) : Type where
  url : String
  payload : π
  api_key_configured : Bool
  timeouts : String
  phase : Option String
deriving Repr, DecidableEq

/-- Embedding of `_common_request_details(endpoint, payload)`. -/
def _common_request_details {π : Type} (cfg : Config) (endpoint : String)
    (payload : π) : RequestDetails π :=
  { url := cfg.api_base_url ++ "/v1/" ++ endpoint
  , payload := payload
  , api_key_configured := cfg.api_key_configured
  , timeouts := cfg.timeouts_string
  , phase := none }

/-- The failure dictionary returned by `run_sql_query`: keys `error`,
`status`, the echoed `query`, and the keys that only some branches add
(`http_status`, `exception_type`) as options. -/
structure SqlFailure : Type where
  error : String
  status : String
  http_status : Option Nat
  query : String
  exception_type : Option String
  request_details : RequestDetails SqlPayload
deriving Repr, DecidableEq

/-- The failure dictionary returned by `run_cube_query`, echoing the cube
query structure. -/
structure CubeFailure (β : Type) : Type where
  error : String
  status : String
  http_status : Option Nat
  cube_query : β
  exception_type : Option String
  request_details : RequestDetails (CubePayload β)
deriving Repr, DecidableEq

/-- Value returned by `run_sql_query`: the backend JSON body passed
through unmodified, or the normalized failure dictionary. -/
inductive SqlResult (α : Type) : Type
  | success (data : α)
  | failure (f : SqlFailure)
deriving Repr, DecidableEq

/-- Value returned by `run_cube_query`. -/
inductive CubeResult (β α : Type) : Type
  | success (data : α)
  | failure (f : CubeFailure β)
deriving Repr, DecidableEq

/-- A Python exception escaping the tool function itself (the
`HTTPStatusError` handler can raise `AttributeError` when the parsed
error body is not a dictionary). -/
inductive PyError : Type
  | attributeError (message : String)
deriving Repr, DecidableEq

/-- What `make_api_request` did, as seen by the executor: returned the
decoded body, or raised. -/
inductive ApiOutcome (α : Type) : Type
  | success (data : α)
  | raised (e : ApiException)
deriving Repr, DecidableEq

/-- The literal marker searched for in backend error messages. -/
def somethingWentWrong : String := "Something went wrong:"

/-- Whether `pat` is a prefix of `l` (structural, so it reduces in the
kernel). -/
def listStartsWith : List Char → List Char → Bool
  | _, [] => true
  | [], _ :: _ => false
  | c :: cs, d :: ds => c == d && listStartsWith cs ds

/-- Index of the first occurrence of `pat` inside `l`, scanning left to
right. -/
def findSub : List Char → List Char → Option Nat
  | [], pat => if pat.isEmpty then some 0 else none
  | l@(_ :: cs), pat =>
    if listStartsWith l pat then some 0 else (findSub cs pat).map (· + 1)

/-- Python substring test `sub in s`. -/
def pyContains (s sub : String) : Bool := (findSub s.data sub.data).isSome

/-- Python `s.split(sub, 1)[1]`: everything after the first occurrence of
`sub` (later occurrences kept verbatim); `""` when `sub` does not occur. -/
def pySplitOnceAfter (s sub : String) : String :=
  match findSub s.data sub.data with
  | some i => String.mk (s.data.drop (i + sub.data.length))
  | none => ""

/-- The characters removed by `str.strip()` with no argument (ASCII
whitespace; further Unicode space characters are not modelled). -/
def isPyWhitespace (c : Char) : Bool :=
  c == ' ' || c == '\t' || c == '\n' || c == '\r' || c == '\x0b' || c == '\x0c'

/-- Python `s.strip()`. -/
def pyStrip (s : String) : String :=
  String.mk (((s.data.dropWhile isPyWhitespace).reverse.dropWhile isPyWhitespace).reverse)

/-- The `except httpx.HTTPStatusError` handler of `run_sql_query`:
extract a `message` from the JSON body when possible (trimming the text
after the marker, but falling back to the whole message when the trimmed
text is empty), else fall through to the generic
`"HTTP {status}: {body}"` form; a parsed non-dictionary body raises
`AttributeError` out of the handler. `String.trim` models `str.strip()`
(ASCII whitespace). -/
def sqlHttpStatusHandler (cfg : Config) (sql : String) (payload : SqlPayload)
    (resp : HttpResponse) : Except PyError (SqlResult α) :=
  let error_detail := resp.text
  let fallthrough : Except PyError (SqlResult α) :=
    .ok (.failure
      { error := "HTTP " ++ toString resp.status_code ++ ": " ++ error_detail
      , status := "failed"
      , http_status := none
      , query := sql
      , exception_type := none
      , request_details := _common_request_details cfg "query" payload })
  match resp.body with
  | .invalid => fallthrough
  | .nonDict => .error (.attributeError "list object has no attribute get")
  | .dict message =>
    let msg := message.getD ""
    if msg.isEmpty then fallthrough
    else
      let msg :=
        if pyContains msg somethingWentWrong then
          let stripped := pyStrip (pySplitOnceAfter msg somethingWentWrong)
          if stripped.isEmpty then msg else stripped
        else msg
      .ok (.failure
        { error := msg
        , status := "failed"
        , http_status := some resp.status_code
        , query := sql
        , exception_type := none
        , request_details := _common_request_details cfg "query" payload })

/-- The final `except Exception` handler of `run_sql_query`: classify the
phase, replace an empty `str(e)` by the synthesized fallback, and attach
the qualified exception type and the request details extended with the
phase. -/
def sqlGenericHandler (cfg : Config) (sql : String) (payload : SqlPayload)
    (k : ExcKind) (message : String) : Except PyError (SqlResult α) :=
  let phase := _phase_for_exception k
  let msg := if message.isEmpty then "Query failed with " ++ k.className else message
  .ok (.failure
    { error := msg
    , status := "failed"
    , http_status := none
    , query := sql
    , exception_type := some (k.moduleName ++ "." ++ k.className)
    , request_details :=
        { _common_request_details cfg "query" payload with phase := some phase } })

/-- Embedding of `run_sql_query(sql, integration_id)`: build the payload, call
`make_api_request` (whose behaviour is the `outcome` argument), pass a
success through unmodified, and normalize failures through the two
handlers. -/
def run_sql_query {α : Type} (cfg : Config) (sql : String)
    (integration_id table_default : Option String) (outcome : ApiOutcome α) :
    Except PyError (SqlResult α) :=
  let payload := buildSqlPayload sql integration_id table_default
  match outcome with
  | .success data => .ok (.success data)
  | .raised (.httpStatus resp) => sqlHttpStatusHandler cfg sql payload resp
  | .raised (.exc k m) => sqlGenericHandler cfg sql payload k m

/-- The `except httpx.HTTPStatusError` handler of `run_cube_query`,
identical in structure to the SQL one but echoing `cube_query`. -/
def cubeHttpStatusHandler {β α : Type} (cfg : Config) (cube_query : β)
    (payload : CubePayload β) (resp : HttpResponse) :
    Except PyError (CubeResult β α) :=
  let error_detail := resp.text
  let fallthrough : Except PyError (CubeResult β α) :=
    .ok (.failure
      { error := "HTTP " ++ toString resp.status_code ++ ": " ++ error_detail
      , status := "failed"
      , http_status := none
      , cube_query := cube_query
      , exception_type := none
      , request_details := _common_request_details cfg "query" payload })
  match resp.body with
  | .invalid => fallthrough
  | .nonDict => .error (.attributeError "list object has no attribute get")
  | .dict message =>
    let msg := message.getD ""
    if msg.isEmpty then fallthrough
    else
      let msg :=
        if pyContains msg somethingWentWrong then
          let stripped := pyStrip (pySplitOnceAfter msg somethingWentWrong)
          if stripped.isEmpty then msg else stripped
        else msg
      .ok (.failure
        { error := msg
        , status := "failed"
        , http_status := some resp.status_code
        , cube_query := cube_query
        , exception_type := none
        , request_details := _common_request_details cfg "query" payload })

/-- The final `except Exception` handler of `run_cube_query`. -/
def cubeGenericHandler {β α : Type} (cfg : Config) (cube_query : β)
    (payload : CubePayload β) (k : ExcKind) (message : String) :
    Except PyError (CubeResult β α) :=
  let phase := _phase_for_exception k
  let msg := if message.isEmpty then "Query failed with " ++ k.className else message
  .ok (.failure
    { error := msg
    , status := "failed"
    , http_status := none
    , cube_query := cube_query
    , exception_type := some (k.moduleName ++ "." ++ k.className)
    , request_details :=
        { _common_request_details cfg "query" payload with phase := some phase } })

/-- Embedding of `run_cube_query(cube_query, integration_id)`: build the payload, call
`make_api_request` (whose behaviour is the `outcome` argument), pass a
success through unmodified, and normalize failures through the two
handlers. -/
def run_cube_query {β α : Type} (cfg : Config) (cube_query : β)
    (integration_id cube_default : Option String) (outcome : ApiOutcome α) :
    Except PyError (CubeResult β α) :=
  let payload := buildCubePayload cube_query integration_id cube_default
  match outcome with
  | .success data => .ok (.success data)
  | .raised (.httpStatus resp) => cubeHttpStatusHandler cfg cube_query payload resp
  | .raised (.exc k m) => cubeGenericHandler cfg cube_query payload k m

/-! Helper lemmas about the retry loop and about strings. -/

/-- A string with a non-empty left part stays non-empty under append. -/
lemma append_left_ne_empty (s t : String) (h : s ≠ "") : s ++ t ≠ "" := by
  intro he
  apply h
  apply String.ext
  have hd : s.data ++ t.data = [] := by
    have := congrArg String.data he
    simpa using this
  exact (List.append_eq_nil.mp hd).1

/-- The loop makes at least one attempt beyond the starting counter. -/
lemma postWithRetriesAux_lt {α : Type} (outcomes : List (AttemptOutcome α)) :
    ∀ retries attempt b n ws r,
      postWithRetriesAux retries attempt b outcomes = some (n, ws, r) →
      attempt < n := by
  induction outcomes with
  | nil =>
    intro retries attempt b n ws r h
    simp [postWithRetriesAux] at h
  | cons o rest ih =>
    intro retries attempt b n ws r h
    cases o with
    | success d =>
      simp [postWithRetriesAux] at h
      omega
    | httpStatus resp =>
      simp [postWithRetriesAux] at h
      omega
    | raised k m =>
      simp only [postWithRetriesAux] at h
      split_ifs at h with hc hr
      · simp at h; omega
      · cases hrec : postWithRetriesAux retries (attempt + 1) (b * 2) rest with
        | none => rw [hrec] at h; simp at h
        | some v =>
          obtain ⟨n', ws', r'⟩ := v
          rw [hrec] at h
          simp at h
          have := ih retries (attempt + 1) (b * 2) n' ws' r' hrec
          omega
      · simp at h; omega

/-- The loop never exceeds the configured number of attempts. -/
lemma postWithRetriesAux_le_retries {α : Type} (outcomes : List (AttemptOutcome α)) :
    ∀ retries attempt b n ws r, attempt < retries →
      postWithRetriesAux retries attempt b outcomes = some (n, ws, r) →
      n ≤ retries := by
  induction outcomes with
  | nil =>
    intro retries attempt b n ws r _ h
    simp [postWithRetriesAux] at h
  | cons o rest ih =>
    intro retries attempt b n ws r hlt h
    cases o with
    | success d =>
      simp [postWithRetriesAux] at h
      omega
    | httpStatus resp =>
      simp [postWithRetriesAux] at h
      omega
    | raised k m =>
      simp only [postWithRetriesAux] at h
      split_ifs at h with hc hr
      · simp at h; omega
      · cases hrec : postWithRetriesAux retries (attempt + 1) (b * 2) rest with
        | none => rw [hrec] at h; simp at h
        | some v =>
          obtain ⟨n', ws', r'⟩ := v
          rw [hrec] at h
          simp at h
          have := ih retries (attempt + 1) (b * 2) n' ws' r' (by omega) hrec
          omega
      · simp at h; omega

/-- The sleeps performed by the loop double starting from the current
backoff value: starting at counter `attempt` with backoff `b`, a run that
ends at attempt `n` slept exactly `b, 2b, 4b, ...` for the
`n - attempt - 1` retries in between. -/
lemma postWithRetriesAux_waits {α : Type} (outcomes : List (AttemptOutcome α)) :
    ∀ retries attempt (b : ℚ) n ws r,
      postWithRetriesAux retries attempt b outcomes = some (n, ws, r) →
      ws = (List.range (n - (attempt + 1))).map (fun i => b * 2 ^ i) := by
  induction outcomes with
  | nil =>
    intro retries attempt b n ws r h
    simp [postWithRetriesAux] at h
  | cons o rest ih =>
    intro retries attempt b n ws r h
    cases o with
    | success d =>
      simp [postWithRetriesAux] at h
      obtain ⟨hn, hws, _⟩ := h
      subst hn
      simp [hws.symm]
    | httpStatus resp =>
      simp [postWithRetriesAux] at h
      obtain ⟨hn, hws, _⟩ := h
      subst hn
      simp [hws.symm]
    | raised k m =>
      simp only [postWithRetriesAux] at h
      split_ifs at h with hc hr
      · simp at h
        obtain ⟨hn, hws, _⟩ := h
        subst hn
        simp [hws.symm]
      · cases hrec : postWithRetriesAux retries (attempt + 1) (b * 2) rest with
        | none => rw [hrec] at h; simp at h
        | some v =>
          obtain ⟨n', ws', r'⟩ := v
          rw [hrec] at h
          simp at h
          obtain ⟨hn, hws, _⟩ := h
          have hlt := postWithRetriesAux_lt rest retries (attempt + 1) (b * 2) n' ws' r' hrec
          have hws' := ih retries (attempt + 1) (b * 2) n' ws' r' hrec
          subst hn
          have hk : n' - (attempt + 1) = (n' - (attempt + 1 + 1)) + 1 := by omega
          rw [← hws, hws', hk, List.range_succ_eq_map]
          simp [List.map_map, Function.comp]
          intro i _
          ring
      · simp at h
        obtain ⟨hn, hws, _⟩ := h
        subst hn
        simp [hws.symm]

/-- Every failure built by the SQL HTTP-status handler has a non-empty
error. -/
lemma sqlHttpStatusHandler_error_ne_empty {α : Type} (cfg : Config)
    (sql : String) (payload : SqlPayload) (resp : HttpResponse) (f : SqlFailure)
    (h : sqlHttpStatusHandler (α := α) cfg sql payload resp = .ok (.failure f)) :
    f.error ≠ "" := by
  unfold sqlHttpStatusHandler at h
  cases hb : resp.body with
  | invalid =>
    rw [hb] at h
    simp at h
    subst h
    exact append_left_ne_empty _ _ (append_left_ne_empty _ _ (append_left_ne_empty _ _ (by decide)))
  | nonDict =>
    rw [hb] at h
    simp at h
  | dict message =>
    rw [hb] at h
    simp only at h
    by_cases hm : (message.getD "").isEmpty
    · rw [if_pos hm] at h
      simp at h
      subst h
      exact append_left_ne_empty _ _ (append_left_ne_empty _ _ (append_left_ne_empty _ _ (by decide)))
    · rw [if_neg hm] at h
      by_cases hc : pyContains (message.getD "") somethingWentWrong
      · rw [if_pos hc] at h
        by_cases hs : (pyStrip (pySplitOnceAfter (message.getD "") somethingWentWrong)).isEmpty
        · rw [if_pos hs] at h
          simp at h
          subst h
          intro he
          exact hm ((String.isEmpty_iff _).mpr he)
        · rw [if_neg hs] at h
          simp at h
          subst h
          intro he
          exact hs ((String.isEmpty_iff _).mpr he)
      · rw [if_neg hc] at h
        simp at h
        subst h
        intro he
        exact hm ((String.isEmpty_iff _).mpr he)

/-- Every failure built by the SQL generic handler has a non-empty
error. -/
lemma sqlGenericHandler_error_ne_empty {α : Type} (cfg : Config)
    (sql : String) (payload : SqlPayload) (k : ExcKind) (m : String)
    (f : SqlFailure)
    (h : sqlGenericHandler (α := α) cfg sql payload k m = .ok (.failure f)) :
    f.error ≠ "" := by
  unfold sqlGenericHandler at h
  simp only at h
  by_cases hm : m.isEmpty
  · rw [if_pos hm] at h
    simp at h
    subst h
    exact append_left_ne_empty _ _ (by decide)
  · rw [if_neg hm] at h
    simp at h
    subst h
    intro he
    exact hm ((String.isEmpty_iff _).mpr he)

/-- Every failure built by the cube HTTP-status handler has a non-empty
error. -/
lemma cubeHttpStatusHandler_error_ne_empty {β α : Type} (cfg : Config)
    (q : β) (payload : CubePayload β) (resp : HttpResponse) (f : CubeFailure β)
    (h : cubeHttpStatusHandler (α := α) cfg q payload resp = .ok (.failure f)) :
    f.error ≠ "" := by
  unfold cubeHttpStatusHandler at h
  cases hb : resp.body with
  | invalid =>
    rw [hb] at h
    simp at h
    subst h
    exact append_left_ne_empty _ _ (append_left_ne_empty _ _ (append_left_ne_empty _ _ (by decide)))
  | nonDict =>
    rw [hb] at h
    simp at h
  | dict message =>
    rw [hb] at h
    simp only at h
    by_cases hm : (message.getD "").isEmpty
    · rw [if_pos hm] at h
      simp at h
      subst h
      exact append_left_ne_empty _ _ (append_left_ne_empty _ _ (append_left_ne_empty _ _ (by decide)))
    · rw [if_neg hm] at h
      by_cases hc : pyContains (message.getD "") somethingWentWrong
      · rw [if_pos hc] at h
        by_cases hs : (pyStrip (pySplitOnceAfter (message.getD "") somethingWentWrong)).isEmpty
        · rw [if_pos hs] at h
          simp at h
          subst h
          intro he
          exact hm ((String.isEmpty_iff _).mpr he)
        · rw [if_neg hs] at h
          simp at h
          subst h
          intro he
          exact hs ((String.isEmpty_iff _).mpr he)
      · rw [if_neg hc] at h
        simp at h
        subst h
        intro he
        exact hm ((String.isEmpty_iff _).mpr he)

/-- Every failure built by the cube generic handler has a non-empty
error. -/
lemma cubeGenericHandler_error_ne_empty {β α : Type} (cfg : Config)
    (q : β) (payload : CubePayload β) (k : ExcKind) (m : String)
    (f : CubeFailure β)
    (h : cubeGenericHandler (α := α) cfg q payload k m = .ok (.failure f)) :
    f.error ≠ "" := by
  unfold cubeGenericHandler at h
  simp only at h
  by_cases hm : m.isEmpty
  · rw [if_pos hm] at h
    simp at h
    subst h
    exact append_left_ne_empty _ _ (by decide)
  · rw [if_neg hm] at h
    simp at h
    subst h
    intro he
    exact hm ((String.isEmpty_iff _).mpr he)

/-- C1: for every call to run_sql_query or run_cube_query and every
failure outcome, the returned failure result's error field is a non-empty
string, and an exception whose native message (str of the exception) is
empty is replaced by the synthesized fallback naming the exception
class. -/
theorem C1_failure_error_nonempty {β α : Type} (cfg : Config) (sql : String)
    (q : β) (iid d : Option String) (outcome : ApiOutcome α) :
    (∀ f, run_sql_query cfg sql iid d outcome = .ok (.failure f) → f.error ≠ "")
    ∧ (∀ f, run_cube_query cfg q iid d outcome = .ok (.failure f) → f.error ≠ "")
    ∧ (∀ k f, run_sql_query (α := α) cfg sql iid d (.raised (.exc k "")) = .ok (.failure f) →
        f.error = "Query failed with " ++ k.className)
    ∧ (∀ k f, run_cube_query (α := α) cfg q iid d (.raised (.exc k "")) = .ok (.failure f) →
        f.error = "Query failed with " ++ k.className) := by
  refine ⟨?_, ?_, ?_, ?_⟩
  · intro f h
    cases outcome with
    | success data => simp [run_sql_query] at h
    | raised e =>
      cases e with
      | httpStatus resp => exact sqlHttpStatusHandler_error_ne_empty cfg sql _ resp f h
      | exc k m => exact sqlGenericHandler_error_ne_empty cfg sql _ k m f h
  · intro f h
    cases outcome with
    | success data => simp [run_cube_query] at h
    | raised e =>
      cases e with
      | httpStatus resp => exact cubeHttpStatusHandler_error_ne_empty cfg q _ resp f h
      | exc k m => exact cubeGenericHandler_error_ne_empty cfg q _ k m f h
  · intro k f h
    simp [run_sql_query, sqlGenericHandler, String.isEmpty] at h
    subst h
    rfl
  · intro k f h
    simp [run_cube_query, cubeGenericHandler, String.isEmpty] at h
    subst h
    rfl

/-- C1 witness: a connect timeout with an empty native message yields the
synthesized non-empty error message. -/
theorem C1_witness :
    (SqlFailure.error
      { error := "Query failed with ConnectTimeout"
      , status := "failed"
      , http_status := none
      , query := "SELECT 1"
      , exception_type := some "httpx.ConnectTimeout"
      , request_details :=
          { url := "https://api.definite.app/v1/query"
          , payload := { sql := "SELECT 1", integration_id := none }
          , api_key_configured := true
          , timeouts := "retries: 4"
          , phase := some "connect_timeout" } }) ≠ "" :=
  (C1_failure_error_nonempty (β := Unit) (α := Unit)
    { api_base_url := "https://api.definite.app"
    , api_key_configured := true
    , timeouts_string := "retries: 4" }
    "SELECT 1" () none none (.raised (.exc .connectTimeout ""))).1 _ rfl

/-- C2: evaluation of the code at the failing input. A non-2xx response
whose body is valid JSON but not an object (here the body text is a JSON
array) makes the HTTPStatusError handler itself raise AttributeError at
error_json.get: an exception raised inside an except block is not caught
by the sibling except Exception clause, so run_sql_query raises instead
of returning one of the two documented shapes. -/
theorem C2_nondict_body_raises :
    run_sql_query (α := Nat)
      { api_base_url := "https://api.definite.app"
      , api_key_configured := true
      , timeouts_string := "retries: 4" }
      "SELECT 1" none none
      (.raised (.httpStatus { status_code := 400, text := "[]", body := .nonDict }))
    = .error (.attributeError "list object has no attribute get") := rfl

/-- C3 counterexample: the claim fails on the code in both of its cases.
With body message "Something went wrong: " (marker followed only by
whitespace) the error is the original message, not
"Query failed with HTTP 500"; with a present but empty message the
handler falls through to "HTTP 404: ..." embedding the raw body, not
"Query failed with HTTP 404". -/
theorem C3_counterexample :
    (run_sql_query (α := Nat)
      { api_base_url := "u", api_key_configured := true, timeouts_string := "t" }
      "q" none none
      (.raised (.httpStatus
        { status_code := 500
        , text := "\x7b\x22message\x22: \x22Something went wrong: \x22\x7d"
        , body := .dict (some "Something went wrong: ") }))
      = .ok (.failure
        { error := "Something went wrong: "
        , status := "failed"
        , http_status := some 500
        , query := "q"
        , exception_type := none
        , request_details :=
            { url := "u/v1/query"
            , payload := { sql := "q", integration_id := none }
            , api_key_configured := true
            , timeouts := "t"
            , phase := none } })
      ∧ "Something went wrong: " ≠ "Query failed with HTTP 500")
    ∧ (run_sql_query (α := Nat)
      { api_base_url := "u", api_key_configured := true, timeouts_string := "t" }
      "q" none none
      (.raised (.httpStatus
        { status_code := 404
        , text := "\x7b\x22message\x22: \x22\x22\x7d"
        , body := .dict (some "") }))
      = .ok (.failure
        { error := "HTTP 404: \x7b\x22message\x22: \x22\x22\x7d"
        , status := "failed"
        , http_status := none
        , query := "q"
        , exception_type := none
        , request_details :=
            { url := "u/v1/query"
            , payload := { sql := "q", integration_id := none }
            , api_key_configured := true
            , timeouts := "t"
            , phase := none } })
      ∧ "HTTP 404: \x7b\x22message\x22: \x22\x22\x7d" ≠ "Query failed with HTTP 404") :=
  ⟨⟨rfl, by decide⟩, ⟨rfl, by decide⟩⟩

/-- C3 amended: for an HTTP-status failure whose body parses as a JSON
object with a message field, (a) when the message contains the marker and
the text after the marker strips to empty, the error is the whole
original message unchanged (and http_status is present); (b) when the
message is present but empty, the handler falls through to the generic
form "HTTP \x7bstatus\x7d: \x7bbody text\x7d" and the result carries no
http_status field. The string "Query failed with HTTP \x7bstatus\x7d" is
produced in neither case. -/
theorem C3_amended {α : Type} (cfg : Config) (sql : String)
    (iid d : Option String) (status : Nat) (text msg : String) :
    (msg.isEmpty = false → pyContains msg somethingWentWrong = true →
     (pyStrip (pySplitOnceAfter msg somethingWentWrong)).isEmpty = true →
     ∀ f, run_sql_query (α := α) cfg sql iid d
        (.raised (.httpStatus { status_code := status, text := text, body := .dict (some msg) }))
        = .ok (.failure f) →
      f.error = msg ∧ f.http_status = some status)
    ∧ (∀ f, run_sql_query (α := α) cfg sql iid d
        (.raised (.httpStatus { status_code := status, text := text, body := .dict (some "") }))
        = .ok (.failure f) →
      f.error = "HTTP " ++ toString status ++ ": " ++ text ∧ f.http_status = none) := by
  constructor
  · intro hm hc hs f h
    simp only [run_sql_query, sqlHttpStatusHandler, Option.getD_some] at h
    rw [hm] at h
    simp only [Bool.false_eq_true, if_false] at h
    rw [hc, hs] at h
    simp only [if_true] at h
    simp only [Except.ok.injEq, SqlResult.failure.injEq] at h
    subst h
    exact ⟨rfl, rfl⟩
  · intro f h
    simp only [run_sql_query, sqlHttpStatusHandler, Option.getD_some] at h
    simp only [show ("" : String).isEmpty = true from rfl, if_true] at h
    simp only [Except.ok.injEq, SqlResult.failure.injEq] at h
    subst h
    exact ⟨rfl, rfl⟩

/-- C3 amended witness: at status 500 with message
"Something went wrong: " the error is that original message, with the
status code included. -/
theorem C3_amended_witness :
    (SqlFailure.error
      { error := "Something went wrong: "
      , status := "failed"
      , http_status := some 500
      , query := "q"
      , exception_type := none
      , request_details :=
          { url := "u/v1/query"
          , payload := { sql := "q", integration_id := none }
          , api_key_configured := true
          , timeouts := "t"
          , phase := none } }) = "Something went wrong: " :=
  ((C3_amended (α := Nat)
      { api_base_url := "u", api_key_configured := true, timeouts_string := "t" }
      "q" none none 500 "b" "Something went wrong: ").1
    rfl rfl rfl _ rfl).1

/-- C4: inside the send loop a failed attempt is retried if and only if
the failure is in the closed connectivity set; a non-2xx response is
never retried and terminates at once as a raised classified error
(independently of what later attempts would have done), and an exception
outside the set is never retried either. -/
theorem C4_retry_iff_connectivity {α : Type} (retries : Nat) (b : ℚ) :
    (isConnectivity .connectTimeout = true ∧ isConnectivity .connectError = true
     ∧ isConnectivity .readTimeout = true ∧ isConnectivity .remoteProtocolError = true
     ∧ isConnectivity .poolTimeout = true ∧ isConnectivity .asyncioTimeout = true
     ∧ ∀ md nm, isConnectivity (.other md nm) = false)
    ∧ (∀ (resp : HttpResponse) (rest : List (AttemptOutcome α)),
        _post_with_retries retries b (.httpStatus resp :: rest)
          = some (1, [], .error (.httpStatus resp)))
    ∧ (∀ (k : ExcKind) (m : String) (rest : List (AttemptOutcome α)),
        isConnectivity k = false →
        _post_with_retries retries b (.raised k m :: rest)
          = some (1, [], .error (.exc k m)))
    ∧ (∀ (k : ExcKind) (m : String) (rest : List (AttemptOutcome α)) n ws r,
        _post_with_retries retries b (.raised k m :: rest) = some (n, ws, r) →
        2 ≤ n → isConnectivity k = true)
    ∧ (∀ (k : ExcKind) (m : String) (data : α) (rest : List (AttemptOutcome α)),
        isConnectivity k = true → 2 ≤ retries →
        _post_with_retries retries b (.raised k m :: .success data :: rest)
          = some (2, [b], .ok data)) := by
  refine ⟨⟨rfl, rfl, rfl, rfl, rfl, rfl, fun md nm => rfl⟩, ?_, ?_, ?_, ?_⟩
  · intro resp rest
    simp [_post_with_retries, postWithRetriesAux]
  · intro k m rest hk
    simp [_post_with_retries, postWithRetriesAux, hk]
  · intro k m rest n ws r h h2
    cases hk : isConnectivity k with
    | true => rfl
    | false =>
      rw [_post_with_retries] at h
      simp [postWithRetriesAux, hk] at h
      omega
  · intro k m data rest hk hr
    have h1 : ¬ (retries ≤ 0 + 1) := by omega
    simp [_post_with_retries, postWithRetriesAux, hk, h1]

/-- C4 witness: a connect timeout on the first attempt is retried and the
call succeeds on the second attempt after one backoff sleep. -/
theorem C4_witness :
    _post_with_retries (α := Nat) 4 (1 / 2)
      [.raised .connectTimeout "boom", .success 7]
      = some (2, [1 / 2], .ok 7) :=
  (C4_retry_iff_connectivity (α := Nat) 4 (1 / 2)).2.2.2.2
    .connectTimeout "boom" 7 [] rfl (by omega)

/-- C5: the transport client makes at most the configured number of
attempts, the waits double from the configured base (the wait before
attempt k+1 is base times 2 to the k-1), three connectivity failures
followed by a success on the fourth attempt return the success with the
waits summing to base + 2*base + 4*base, and when all allowed attempts
fail the failure of the last attempt is propagated unchanged. -/
theorem C5_retry_schedule {α : Type} :
    (∀ (retries : Nat) (b : ℚ) (outcomes : List (AttemptOutcome α)) n ws r,
        1 ≤ retries →
        _post_with_retries retries b outcomes = some (n, ws, r) →
        n ≤ retries ∧ ws = (List.range (n - 1)).map (fun i => b * 2 ^ i))
    ∧ (∀ (b : ℚ) (data : α) (m1 m2 m3 : String),
        _post_with_retries 4 b
          [.raised .connectTimeout m1, .raised .connectTimeout m2,
           .raised .connectTimeout m3, .success data]
          = some (4, [b, b * 2, b * 2 * 2], .ok data)
        ∧ [b, b * 2, b * 2 * 2].sum = b + 2 * b + 4 * b)
    ∧ (∀ (b : ℚ) (m1 m2 m3 m4 : String),
        _post_with_retries (α := α) 4 b
          [.raised .connectTimeout m1, .raised .connectTimeout m2,
           .raised .connectTimeout m3, .raised .connectTimeout m4]
          = some (4, [b, b * 2, b * 2 * 2], .error (.exc .connectTimeout m4))) := by
  refine ⟨?_, ?_, ?_⟩
  · intro retries b outcomes n ws r hr h
    rw [_post_with_retries] at h
    constructor
    · exact postWithRetriesAux_le_retries outcomes retries 0 b n ws r (by omega) h
    · simpa using postWithRetriesAux_waits outcomes retries 0 b n ws r h
  · intro b data m1 m2 m3
    constructor
    · simp [_post_with_retries, postWithRetriesAux, isConnectivity]
    · simp
      ring
  · intro b m1 m2 m3 m4
    simp [_post_with_retries, postWithRetriesAux, isConnectivity]

/-- C5 witness: with base one half the three waits are one half, one and
two time units. -/
theorem C5_witness :
    _post_with_retries (α := Nat) 4 (1 / 2)
      [.raised .connectTimeout "t1", .raised .connectTimeout "t2",
       .raised .connectTimeout "t3", .success 9]
      = some (4, [1 / 2, 1 / 2 * 2, 1 / 2 * 2 * 2], .ok 9) :=
  ((C5_retry_schedule (α := Nat)).2.1 (1 / 2) 9 "t1" "t2" "t3").1

/-- C6: exceeding the attempt deadline (asyncio.TimeoutError raised by
wait_for) is treated identically to a native timeout: it is in the retry
set like the other connectivity failures, and when retries are exhausted
the failure result's request_details.phase names the failure kind while
http_status is absent. -/
theorem C6_attempt_deadline {β α : Type} (cfg : Config) (sql : String) (q : β)
    (iid d : Option String) :
    (isConnectivity .asyncioTimeout = isConnectivity .connectTimeout
     ∧ isConnectivity .asyncioTimeout = isConnectivity .readTimeout)
    ∧ (∀ (retries : Nat) (b : ℚ) (m : String) (data : α)
        (rest : List (AttemptOutcome α)), 2 ≤ retries →
        _post_with_retries retries b (.raised .asyncioTimeout m :: .success data :: rest)
          = some (2, [b], .ok data))
    ∧ (_phase_for_exception .asyncioTimeout = "attempt_deadline_timeout"
       ∧ _phase_for_exception .connectTimeout = "connect_timeout"
       ∧ _phase_for_exception .readTimeout = "read_timeout"
       ∧ _phase_for_exception .poolTimeout = "pool_timeout"
       ∧ _phase_for_exception .connectError = "connect_error"
       ∧ _phase_for_exception .remoteProtocolError = "protocol_error")
    ∧ (∀ (k : ExcKind) (m : String) f,
        run_sql_query (α := α) cfg sql iid d (.raised (.exc k m)) = .ok (.failure f) →
        f.http_status = none ∧ f.request_details.phase = some (_phase_for_exception k))
    ∧ (∀ (k : ExcKind) (m : String) f,
        run_cube_query (α := α) cfg q iid d (.raised (.exc k m)) = .ok (.failure f) →
        f.http_status = none ∧ f.request_details.phase = some (_phase_for_exception k)) := by
  refine ⟨⟨rfl, rfl⟩, ?_, ⟨rfl, rfl, rfl, rfl, rfl, rfl⟩, ?_, ?_⟩
  · intro retries b m data rest hr
    have h1 : ¬ (retries ≤ 0 + 1) := by omega
    simp [_post_with_retries, postWithRetriesAux, isConnectivity, h1]
  · intro k m f h
    simp only [run_sql_query, sqlGenericHandler] at h
    by_cases hm : m.isEmpty
    · rw [if_pos hm] at h
      simp only [Except.ok.injEq, SqlResult.failure.injEq] at h
      subst h
      exact ⟨rfl, rfl⟩
    · rw [if_neg hm] at h
      simp only [Except.ok.injEq, SqlResult.failure.injEq] at h
      subst h
      exact ⟨rfl, rfl⟩
  · intro k m f h
    simp only [run_cube_query, cubeGenericHandler] at h
    by_cases hm : m.isEmpty
    · rw [if_pos hm] at h
      simp only [Except.ok.injEq, CubeResult.failure.injEq] at h
      subst h
      exact ⟨rfl, rfl⟩
    · rw [if_neg hm] at h
      simp only [Except.ok.injEq, CubeResult.failure.injEq] at h
      subst h
      exact ⟨rfl, rfl⟩

/-- C6 witness: an attempt-deadline timeout exhausting one single allowed
attempt surfaces with phase attempt_deadline_timeout and no HTTP
status. -/
theorem C6_witness :
    (SqlFailure.http_status
      { error := "deadline"
      , status := "failed"
      , http_status := none
      , query := "SELECT 1"
      , exception_type := some "asyncio.exceptions.TimeoutError"
      , request_details :=
          { url := "u/v1/query"
          , payload := { sql := "SELECT 1", integration_id := none }
          , api_key_configured := true
          , timeouts := "t"
          , phase := some "attempt_deadline_timeout" } }) = none
    ∧ (SqlFailure.request_details
      { error := "deadline"
      , status := "failed"
      , http_status := none
      , query := "SELECT 1"
      , exception_type := some "asyncio.exceptions.TimeoutError"
      , request_details :=
          { url := "u/v1/query"
          , payload := { sql := "SELECT 1", integration_id := none }
          , api_key_configured := true
          , timeouts := "t"
          , phase := some "attempt_deadline_timeout" } }).phase
      = some "attempt_deadline_timeout" :=
  (C6_attempt_deadline (β := Unit) (α := Nat)
      { api_base_url := "u", api_key_configured := true, timeouts_string := "t" }
      "SELECT 1" () none none).2.2.2.1 .asyncioTimeout "deadline" _ rfl

/-- C7: for an HTTP-status failure whose body parses as a JSON object
with a non-empty message containing the marker followed by non-blank
text, the error is the text after the marker with surrounding whitespace
stripped, and the result includes the HTTP status code and the diagnostic
request details. -/
theorem C7_marker_extraction {β α : Type} (cfg : Config) (sql : String) (q : β)
    (iid d : Option String) (status : Nat) (text msg : String)
    (hm : msg.isEmpty = false)
    (hc : pyContains msg somethingWentWrong = true)
    (hs : (pyStrip (pySplitOnceAfter msg somethingWentWrong)).isEmpty = false) :
    (∀ f, run_sql_query (α := α) cfg sql iid d
        (.raised (.httpStatus { status_code := status, text := text, body := .dict (some msg) }))
        = .ok (.failure f) →
      f.error = pyStrip (pySplitOnceAfter msg somethingWentWrong)
      ∧ f.http_status = some status
      ∧ f.request_details = _common_request_details cfg "query" (buildSqlPayload sql iid d))
    ∧ (∀ f, run_cube_query (α := α) cfg q iid d
        (.raised (.httpStatus { status_code := status, text := text, body := .dict (some msg) }))
        = .ok (.failure f) →
      f.error = pyStrip (pySplitOnceAfter msg somethingWentWrong)
      ∧ f.http_status = some status
      ∧ f.request_details = _common_request_details cfg "query" (buildCubePayload q iid d)) := by
  constructor
  · intro f h
    simp only [run_sql_query, sqlHttpStatusHandler, Option.getD_some] at h
    rw [hm] at h
    simp only [Bool.false_eq_true, if_false] at h
    rw [hc, hs] at h
    simp only [if_true, Bool.false_eq_true, if_false] at h
    simp only [Except.ok.injEq, SqlResult.failure.injEq] at h
    subst h
    exact ⟨rfl, rfl, rfl⟩
  · intro f h
    simp only [run_cube_query, cubeHttpStatusHandler, Option.getD_some] at h
    rw [hm] at h
    simp only [Bool.false_eq_true, if_false] at h
    rw [hc, hs] at h
    simp only [if_true, Bool.false_eq_true, if_false] at h
    simp only [Except.ok.injEq, CubeResult.failure.injEq] at h
    subst h
    exact ⟨rfl, rfl, rfl⟩

/-- C7 witness: the body message "Something went wrong: syntax error at
line 3" yields the error "syntax error at line 3" together with the
status code 500. -/
theorem C7_witness :
    (SqlFailure.error
      { error := "syntax error at line 3"
      , status := "failed"
      , http_status := some 500
      , query := "q"
      , exception_type := none
      , request_details :=
          { url := "u/v1/query"
          , payload := { sql := "q", integration_id := none }
          , api_key_configured := true
          , timeouts := "t"
          , phase := none } }) = "syntax error at line 3"
    ∧ (SqlFailure.http_status
      { error := "syntax error at line 3"
      , status := "failed"
      , http_status := some 500
      , query := "q"
      , exception_type := none
      , request_details :=
          { url := "u/v1/query"
          , payload := { sql := "q", integration_id := none }
          , api_key_configured := true
          , timeouts := "t"
          , phase := none } }) = some 500 :=
  ⟨((C7_marker_extraction (β := Unit) (α := Nat)
      { api_base_url := "u", api_key_configured := true, timeouts_string := "t" }
      "q" () none none 500 "b" "Something went wrong: syntax error at line 3"
      rfl rfl rfl).1 _ rfl).1,
   ((C7_marker_extraction (β := Unit) (α := Nat)
      { api_base_url := "u", api_key_configured := true, timeouts_string := "t" }
      "q" () none none 500 "b" "Something went wrong: syntax error at line 3"
      rfl rfl rfl).1 _ rfl).2.1⟩

/-- C8: the payload's integration_id follows the precedence of the
source: a (truthy) caller-provided identifier is included; otherwise the
per-operation configured default is included when present (truthy);
otherwise the key is omitted; and the query itself is always in the
payload. -/
theorem C8_integration_id_precedence {β : Type} (sql : String) (q : β)
    (iid dflt : Option String) :
    (pyTruthy iid = true →
      (buildSqlPayload sql iid dflt).integration_id = iid
      ∧ (buildCubePayload q iid dflt).integration_id = iid)
    ∧ (pyTruthy iid = false → pyTruthy dflt = true →
      (buildSqlPayload sql iid dflt).integration_id = dflt
      ∧ (buildCubePayload q iid dflt).integration_id = dflt)
    ∧ (pyTruthy iid = false → pyTruthy dflt = false →
      (buildSqlPayload sql iid dflt).integration_id = none
      ∧ (buildCubePayload q iid dflt).integration_id = none)
    ∧ (buildSqlPayload sql iid dflt).sql = sql
    ∧ (buildCubePayload q iid dflt).cube_query = q := by
  refine ⟨?_, ?_, ?_, ?_, ?_⟩
  · intro hi
    simp [buildSqlPayload, buildCubePayload, hi]
  · intro hi hd
    simp [buildSqlPayload, buildCubePayload, hi, hd]
  · intro hi hd
    simp [buildSqlPayload, buildCubePayload, hi, hd]
  · by_cases hi : pyTruthy iid
    · simp [buildSqlPayload, hi]
    · by_cases hd : pyTruthy dflt <;> simp [buildSqlPayload, hi, hd]
  · by_cases hi : pyTruthy iid
    · simp [buildCubePayload, hi]
    · by_cases hd : pyTruthy dflt <;> simp [buildCubePayload, hi, hd]

/-- C8 witness: a provided identifier wins over a configured default. -/
theorem C8_witness :
    (buildSqlPayload "SELECT 1" (some "abc") (some "dflt")).integration_id = some "abc"
    ∧ (buildCubePayload (β := Nat) 0 (some "abc") (some "dflt")).integration_id = some "abc" :=
  (C8_integration_id_precedence (β := Nat) "SELECT 1" 0 (some "abc") (some "dflt")).1 rfl

/-- C9: the DNS-resolution log and the health preflight are best-effort:
the result of make_api_request does not depend on the outcome of either
step and always equals the result of the main POST, and both diagnostic
steps absorb every outcome instead of raising. -/
theorem C9_diagnostics_best_effort {α : Type} (dns dns2 : Except String (List String))
    (pf pf2 : Except String Nat) (retries : Nat) (b : ℚ)
    (outcomes : List (AttemptOutcome α)) :
    make_api_request dns pf retries b outcomes
      = make_api_request dns2 pf2 retries b outcomes
    ∧ make_api_request dns pf retries b outcomes
      = _post_with_retries retries b outcomes
    ∧ dnsVisibilityStep dns = () ∧ _preflight_health pf = () :=
  ⟨rfl, rfl, rfl, rfl⟩

/-- C10: an empty-string integration_id behaves exactly like an absent
one (the default applies when present and the key is omitted otherwise),
and the empty string itself never appears in the payload. -/
theorem C10_empty_integration_id {β : Type} (sql : String) (q : β)
    (dflt : Option String) :
    (buildSqlPayload sql (some "") dflt = buildSqlPayload sql none dflt)
    ∧ (buildCubePayload q (some "") dflt = buildCubePayload q none dflt)
    ∧ (∀ iid, (buildSqlPayload sql iid dflt).integration_id ≠ some "")
    ∧ (∀ iid, (buildCubePayload q iid dflt).integration_id ≠ some "") := by
  refine ⟨rfl, rfl, ?_, ?_⟩
  · intro iid h
    by_cases hi : pyTruthy iid
    · rw [buildSqlPayload, if_pos hi] at h
      simp at h
      rw [h] at hi
      simp [pyTruthy, String.isEmpty] at hi
    · by_cases hd : pyTruthy dflt
      · rw [buildSqlPayload, if_neg hi, if_pos hd] at h
        simp at h
        rw [h] at hd
        simp [pyTruthy, String.isEmpty] at hd
      · rw [buildSqlPayload, if_neg hi, if_neg hd] at h
        simp at h
  · intro iid h
    by_cases hi : pyTruthy iid
    · rw [buildCubePayload, if_pos hi] at h
      simp at h
      rw [h] at hi
      simp [pyTruthy, String.isEmpty] at hi
    · by_cases hd : pyTruthy dflt
      · rw [buildCubePayload, if_neg hi, if_pos hd] at h
        simp at h
        rw [h] at hd
        simp [pyTruthy, String.isEmpty] at hd
      · rw [buildCubePayload, if_neg hi, if_neg hd] at h
        simp at h

/-- C10 witness: with an empty-string identifier the configured default
is used, and the empty string is not in the payload. -/
theorem C10_witness :
    buildSqlPayload "SELECT 1" (some "") (some "dflt")
      = buildSqlPayload "SELECT 1" none (some "dflt")
    ∧ (buildSqlPayload "SELECT 1" (some "") (some "dflt")).integration_id ≠ some "" :=
  ⟨(C10_empty_integration_id (β := Nat) "SELECT 1" 0 (some "dflt")).1,
   (C10_empty_integration_id (β := Nat) "SELECT 1" 0 (some "dflt")).2.2.1 (some "")⟩
